import Mathlib

/-!
Verification of the affiliate/commission backend (`backend/app`): a shallow
embedding of the data model (`models.py`), the services (`services.py`) and the
payment adapter (`razorpay_service.py`), together with theorems about the
settlement workflow, pricing arithmetic, dashboard aggregation and seeding.

Conventions of the embedding:
* Database tables are lists of rows; a SQLAlchemy session is a pair of the
  last committed database and the current in-memory state (mutated ORM
  objects); `commit` copies the current state into the committed one and can
  be made to fail via an explicit success flag, modelling a database error
  raised by `session.commit()`.
* Python `float` arithmetic (used by `Package.gst_amount`) is modelled
  exactly: an IEEE-754 binary64 value in the normal range is a rational
  number, represented as an integer fraction with positive denominator, and
  each arithmetic operation rounds its exact rational result to 53 bits of
  precision with round-to-nearest, ties-to-even.
* External collaborators (the `hmac`/`hashlib` libraries, `bcrypt` hashing)
  are parameters of the functions that use them; an HMAC computation that
  raises is modelled by the parameter returning `none`.
* Timestamps (`datetime.utcnow()`) are abstract ticks (`Nat`) threaded as a
  `now` parameter; ids are assigned the way SQLite autoincrement does (one
  more than the current maximum).
-/

namespace Abaus

/-! ### Exact model of binary64 rounding (normal range)

Rationals as unreduced integer fractions with positive denominator; only the
operations the price math needs. -/

/-- An integer fraction `num / den` with `den > 0` by construction at every
use site; kept unreduced so that all operations are plain `Int` arithmetic. -/
structure Q2 where
  num : ℤ
  den : ℤ
deriving DecidableEq

def Q2.lt (x y : Q2) : Bool := x.num * y.den < y.num * x.den

def Q2.le (x y : Q2) : Bool := x.num * y.den ≤ y.num * x.den

def Q2.mul (x y : Q2) : Q2 := ⟨x.num * y.num, x.den * y.den⟩

/-- Division, for a divisor with positive numerator. -/
def Q2.div (x y : Q2) : Q2 := ⟨x.num * y.den, x.den * y.num⟩

def Q2.neg (x : Q2) : Q2 := ⟨-x.num, x.den⟩

/-- Floor of the represented rational (denominator positive). -/
def Q2.floor (x : Q2) : ℤ := x.num.ediv x.den

def Q2.ceil (x : Q2) : ℤ := -((Q2.neg x).floor)

/-- Fuelled search for the binary exponent `e` with `2 ^ e ≤ q < 2 ^ (e + 1)`
for a positive rational `q`. -/
def findExpAux : Nat → Q2 → ℤ → ℤ
  | 0, _, e => e
  | n + 1, q, e =>
    if q.lt ⟨1, 1⟩ then findExpAux n (q.mul ⟨2, 1⟩) (e - 1)
    else if Q2.le ⟨2, 1⟩ q then findExpAux n (q.div ⟨2, 1⟩) (e + 1)
    else e

/-- Binary exponent of a positive rational (enough fuel for the entire
binary64 range). -/
def floatExp (q : Q2) : ℤ := findExpAux 4400 q 0

/-- Integer power of two as a fraction. -/
def qpow2 : ℤ → Q2
  | Int.ofNat n => ⟨2 ^ n, 1⟩
  | Int.negSucc n => ⟨1, 2 ^ (n + 1)⟩

/-- Round a rational to the nearest integer, ties to even. -/
def roundNearestTiesEven (q : Q2) : ℤ :=
  let f := q.floor
  let r2 := 2 * (q.num - f * q.den)
  if r2 < q.den then f
  else if q.den < r2 then f + 1
  else if f % 2 = 0 then f else f + 1

/-- Round a positive rational to 53 significant bits (round to nearest, ties
to even): the value an IEEE-754 binary64 operation returns for this exact
result, in the normal range. -/
def roundDoublePos (q : Q2) : Q2 :=
  (Q2.mk (roundNearestTiesEven (q.div (qpow2 (floatExp q - 52)))) 1).mul
    (qpow2 (floatExp q - 52))

/-- Correctly rounded binary64 value of an exact rational result. -/
def roundDouble (q : Q2) : Q2 :=
  if q.num = 0 then ⟨0, 1⟩
  else if q.num < 0 then (roundDoublePos q.neg).neg
  else roundDoublePos q

/-- Python `int(...)` applied to a float: truncation toward zero. -/
def pyTrunc (q : Q2) : ℤ := if 0 ≤ q.num then q.floor else q.ceil

/-! ### `Package.gst_amount` / `Package.final_price` (models.py)

`gst_amount` is `int(self.base_price * (self.gst_rate / 100))` where
`gst_rate` is a Python float: the division and the multiplication each round
to binary64, and the int conversion truncates.  `gst_rate` holds the
(exactly representable) double it was assigned, e.g. `18.0 = ⟨18, 1⟩`. -/

def gst_amount (base_price : ℤ) (gst_rate : Q2) : ℤ :=
  pyTrunc (roundDouble ((roundDouble ⟨base_price, 1⟩).mul
    (roundDouble (gst_rate.div ⟨100, 1⟩))))

def final_price (base_price : ℤ) (gst_rate : Q2) : ℤ :=
  base_price + gst_amount base_price gst_rate

/-! ### Data model (models.py) -/

inductive PackageTier where
  | silver
  | gold
  | platinum
deriving DecidableEq

inductive OrderStatus where
  | pending
  | completed
  | failed
deriving DecidableEq

structure User where
  id : Nat
  email : String
  full_name : String
  hashed_password : String
  is_active : Bool
  referrer_id : Option Nat
  package_tier : Option PackageTier
  purchased_at : Option Nat
  created_at : Nat
  updated_at : Option Nat
deriving DecidableEq

structure Package where
  id : Nat
  tier : PackageTier
  name : String
  description : Option String
  base_price : ℤ
  gst_rate : Q2
  direct_commission : ℤ
  indirect_commission : ℤ
  features : String
  created_at : Nat
  updated_at : Option Nat
deriving DecidableEq

structure Order where
  id : Nat
  user_id : Nat
  package_id : Nat
  razorpay_order_id : String
  razorpay_payment_id : Option String
  razorpay_signature : Option String
  amount : ℤ
  currency : String
  status : OrderStatus
  created_at : Nat
  completed_at : Option Nat
deriving DecidableEq

structure Commission where
  id : Nat
  earner_id : Nat
  order_id : Nat
  level : Nat
  amount : ℤ
  paid_out : Bool
  paid_out_at : Option Nat
  created_at : Nat
deriving DecidableEq

/-- The relational store: one list of rows per table. -/
structure DB where
  users : List User
  packages : List Package
  orders : List Order
  commissions : List Commission
deriving DecidableEq

/-- A SQLAlchemy session over the store: the state as of the last successful
commit, and the current in-memory state including uncommitted mutations of
ORM objects.  `session.commit()` flushes every pending change at once, so a
successful commit replaces `committed` with `current` wholesale; a failed
commit raises and leaves `committed` untouched.  A request handler that sees
an exception closes the session without committing, so `committed` is what
persists. -/
structure Sess where
  committed : DB
  current : DB
deriving DecidableEq

/-! ### Query helpers (`session.exec(select(...)).first()` and friends) -/

def findUserById (db : DB) (user_id : Nat) : Option User :=
  db.users.find? (fun u => u.id == user_id)

def findUserByEmail (db : DB) (email : String) : Option User :=
  db.users.find? (fun u => u.email == email)

def findPackageByTier (db : DB) (tier : PackageTier) : Option Package :=
  db.packages.find? (fun p => p.tier == tier)

def findPackageById (db : DB) (package_id : Nat) : Option Package :=
  db.packages.find? (fun p => p.id == package_id)

def findOrderByRzpId (db : DB) (razorpay_order_id : String) : Option Order :=
  db.orders.find? (fun o => o.razorpay_order_id == razorpay_order_id)

/-- In-place mutation of the ORM object with the given primary key: the
session holds one object per key, so updating it rewrites every row whose id
matches (at most one in a well-formed table). -/
def replaceUserById (users : List User) (user_id : Nat) (u' : User) : List User :=
  users.map (fun u => if u.id == user_id then u' else u)

def replaceOrderById (orders : List Order) (order_id : Nat) (o' : Order) : List Order :=
  orders.map (fun o => if o.id == order_id then o' else o)

/-- SQLite autoincrement: one more than the largest id in the table. -/
def nextId (ids : List Nat) : Nat := ids.foldr max 0 + 1

/-- Python truthiness of an `Optional[int]`: `None` and `0` are falsy. -/
def pyTruthy : Option Nat → Bool
  | none => false
  | some n => n != 0

/-! ### RazorpayService.verify_payment_signature (razorpay_service.py)

The `hmac`/`hashlib` libraries are an external collaborator: `hmacSha256Hex
key message` is the lowercase hex digest of HMAC-SHA256, and `none` models
any exception raised during the computation (e.g. a missing secret), which
the `try/except` in the source coerces to a failed verification.
`hmac.compare_digest` is a (timing-safe) string equality. -/

def verify_payment_signature (hmacSha256Hex : String → String → Option String)
    (secret razorpay_order_id razorpay_payment_id razorpay_signature : String) : Bool :=
  match hmacSha256Hex secret (razorpay_order_id ++ "|" ++ razorpay_payment_id) with
  | some expected => expected == razorpay_signature
  | none => false

/-! ### CommissionCalculator.calculate_commissions (razorpay_service.py) -/

structure CommissionData where
  earner_id : Nat
  level : Nat
  amount : ℤ
deriving DecidableEq

def calculate_commissions (package : Package) (referrer_id : Option Nat)
    (indirect_referrer_id : Option Nat) : List CommissionData :=
  let commissions : List CommissionData := []
  let commissions :=
    if pyTruthy referrer_id then
      commissions ++ [⟨referrer_id.getD 0, 1, package.direct_commission⟩]
    else commissions
  let commissions :=
    if pyTruthy indirect_referrer_id then
      commissions ++ [⟨indirect_referrer_id.getD 0, 2, package.indirect_commission⟩]
    else commissions
  commissions

/-! ### UserService (services.py) -/

/-- UserService.create_user: reject a duplicate email, otherwise insert the
user with the given `referrer_id` as-is (no validation of it).  `hashPw`
stands for the external `get_password_hash`. -/
def create_user (hashPw : String → String) (now : Nat) (db : DB)
    (email full_name password : String) (referrer_id : Option Nat) :
    Except String (User × DB) :=
  match findUserByEmail db email with
  | some _ => .error "User with this email already exists"
  | none =>
    let user : User :=
      { id := nextId (db.users.map User.id), email := email, full_name := full_name
        hashed_password := hashPw password, is_active := true
        referrer_id := referrer_id, package_tier := none, purchased_at := none
        created_at := now, updated_at := none }
    .ok (user, { db with users := db.users ++ [user] })

/-- UserService.update_user_package: look the user up, set the entitlement
fields, and COMMIT.  The commit inside this helper flushes every pending
change of the session, not only the user row. -/
def update_user_package (now : Nat) (commitOk : Bool) (s : Sess)
    (user_id : Nat) (package_tier : PackageTier) : Except String User × Sess :=
  match findUserById s.current user_id with
  | none => (.error "User not found", s)
  | some user =>
    let user' := { user with package_tier := some package_tier
                             purchased_at := some now, updated_at := some now }
    let cur' := { s.current with users := replaceUserById s.current.users user.id user' }
    if commitOk then (.ok user', ⟨cur', cur'⟩)
    else (.error "database error during commit", ⟨s.committed, cur'⟩)

/-! ### OrderService.verify_and_complete_order (services.py) -/

structure ConfirmResult where
  message : String
  order_id : Nat
  status : OrderStatus
deriving DecidableEq

/-- The `for comm_data in commissions_data: session.add(Commission(...))`
loop: append one Commission row per datum, ids assigned in order. -/
def addCommissions (now : Nat) (order_id : Nat) (db : DB)
    (data : List CommissionData) : DB :=
  data.foldl
    (fun d cd =>
      { d with commissions := d.commissions ++
          [⟨nextId (d.commissions.map Commission.id), cd.earner_id, order_id,
            cd.level, cd.amount, false, none, now⟩] })
    db

/-- OrderService.verify_and_complete_order.  `commit1Ok` is the success of
the commit issued inside `update_user_package`, `commit2Ok` of the final
`session.commit()`.  On any raised error the caller closes the session
without committing, so the second component's `committed` field is what
persists. -/
def verify_and_complete_order (hmacSha256Hex : String → String → Option String)
    (secret : String) (now : Nat) (commit1Ok commit2Ok : Bool) (s : Sess)
    (razorpay_order_id razorpay_payment_id razorpay_signature : String) :
    Except String ConfirmResult × Sess :=
  if verify_payment_signature hmacSha256Hex secret razorpay_order_id
      razorpay_payment_id razorpay_signature = false then
    (.error "Invalid payment signature", s)
  else
    match findOrderByRzpId s.current razorpay_order_id with
    | none => (.error "Order not found", s)
    | some order =>
      if order.status = OrderStatus.completed then
        (.error "Order already completed", s)
      else
        let order' := { order with razorpay_payment_id := some razorpay_payment_id
                                   razorpay_signature := some razorpay_signature
                                   status := OrderStatus.completed
                                   completed_at := some now }
        let cur1 : DB := { s.current with
                           orders := replaceOrderById s.current.orders order.id order' }
        match findPackageById cur1 order.package_id with
        | none => (.error "AttributeError: order has no package row", ⟨s.committed, cur1⟩)
        | some package =>
          match update_user_package now commit1Ok ⟨s.committed, cur1⟩
              order.user_id package.tier with
          | (.error e, s1) => (.error e, s1)
          | (.ok _, s1) =>
            let cur2 : DB :=
              match findUserById s1.current order.user_id with
              | some user =>
                if pyTruthy user.referrer_id then
                  let referrer :=
                    match user.referrer_id with
                    | some rid => findUserById s1.current rid
                    | none => none
                  let indirect_referrer_id :=
                    match referrer with
                    | some r => r.referrer_id
                    | none => none
                  let commissions_data :=
                    calculate_commissions package user.referrer_id indirect_referrer_id
                  addCommissions now order.id s1.current commissions_data
                else s1.current
              | none => s1.current
            if commit2Ok then
              (.ok ⟨"Payment verified successfully", order.id, order'.status⟩, ⟨cur2, cur2⟩)
            else (.error "database error during commit", ⟨s1.committed, cur2⟩)

/-! ### PackageService.create_default_packages (services.py) -/

structure PackageSeed where
  tier : PackageTier
  name : String
  description : String
  base_price : ℤ
  direct_commission : ℤ
  indirect_commission : ℤ
  features : String
deriving DecidableEq

def silverSeed : PackageSeed :=
  ⟨PackageTier.silver, "Silver Package",
   "Basic learning package with essential courses", 254237, 50000, 25000,
   "[\"Access to basic courses\", \"Community support\", \"Mobile app access\", \"Certificate of completion\"]"⟩

def goldSeed : PackageSeed :=
  ⟨PackageTier.gold, "Gold Package",
   "Premium learning package with advanced courses", 423559, 100000, 50000,
   "[\"All Silver features\", \"Advanced courses\", \"1-on-1 mentoring\", \"Priority support\", \"Exclusive webinars\"]"⟩

def platinumSeed : PackageSeed :=
  ⟨PackageTier.platinum, "Platinum Package",
   "Ultimate learning package with all premium features", 677966, 150000, 75000,
   "[\"All Gold features\", \"Master classes\", \"Personal career coaching\", \"Lifetime access\", \"VIP community access\"]"⟩

def packages_data : List PackageSeed := [silverSeed, goldSeed, platinumSeed]

/-- One iteration of the seeding loop: add the package for this seed unless a
row with its tier already exists.  `gst_rate` takes the model default 18.0. -/
def seedPackage (now : Nat) (db : DB) (pd : PackageSeed) : DB :=
  match findPackageByTier db pd.tier with
  | some _ => db
  | none =>
    { db with packages := db.packages ++
        [⟨nextId (db.packages.map Package.id), pd.tier, pd.name, some pd.description,
          pd.base_price, ⟨18, 1⟩, pd.direct_commission, pd.indirect_commission,
          pd.features, now, none⟩] }

/-- PackageService.create_default_packages: the loop over `packages_data`
followed by a single commit (the function only adds rows, so the commit is
the identity on the accumulated state). -/
def create_default_packages (now : Nat) (db : DB) : DB :=
  packages_data.foldl (seedPackage now) db

/-! ### DashboardService.get_user_stats (services.py) -/

structure Earnings where
  total_earned : ℤ
  total_paid_out : ℤ
  available_balance : ℤ
  direct_earnings : ℤ
  indirect_earnings : ℤ
  total_commissions : Nat
deriving DecidableEq

structure ReferralCounts where
  direct_count : Nat
  indirect_count : Nat
  total_count : Nat
deriving DecidableEq

structure UserStats where
  user : User
  earnings : Earnings
  referrals : ReferralCounts
deriving DecidableEq

def get_user_stats (db : DB) (user_id : Nat) : Except String UserStats :=
  match findUserById db user_id with
  | none => .error "User not found"
  | some user =>
    let commissions := db.commissions.filter (fun c => c.earner_id == user_id)
    let total_earned := (commissions.map Commission.amount).sum
    let total_paid_out := ((commissions.filter Commission.paid_out).map Commission.amount).sum
    let available_balance := total_earned - total_paid_out
    let direct_earnings := ((commissions.filter (fun c => c.level == 1)).map Commission.amount).sum
    let indirect_earnings := ((commissions.filter (fun c => c.level == 2)).map Commission.amount).sum
    let direct_referrals := db.users.filter (fun u => u.referrer_id == some user_id)
    let indirect_referrals :=
      direct_referrals.flatMap (fun r => db.users.filter (fun u => u.referrer_id == some r.id))
    .ok { user := user
          earnings := { total_earned := total_earned, total_paid_out := total_paid_out
                        available_balance := available_balance
                        direct_earnings := direct_earnings
                        indirect_earnings := indirect_earnings
                        total_commissions := commissions.length }
          referrals := { direct_count := direct_referrals.length
                         indirect_count := indirect_referrals.length
                         total_count := direct_referrals.length + indirect_referrals.length } }

instance {ε α : Type} [DecidableEq ε] [DecidableEq α] : DecidableEq (Except ε α)
  | Except.error a, Except.error b =>
    if h : a = b then isTrue (congrArg Except.error h)
    else isFalse (fun he => h (Except.error.inj he))
  | Except.error _, Except.ok _ => isFalse (fun he => Except.noConfusion he)
  | Except.ok _, Except.error _ => isFalse (fun he => Except.noConfusion he)
  | Except.ok a, Except.ok b =>
    if h : a = b then isTrue (congrArg Except.ok h)
    else isFalse (fun he => h (Except.ok.inj he))

/-! ### Concrete fixtures used by witnesses and counterexamples -/

/-- A concrete stand-in for the HMAC-SHA256 hex digest collaborator, total on
its inputs and injective in the message for a fixed key. -/
def exHmac : String → String → Option String :=
  fun secret message => some (secret ++ ":" ++ message)

def exEmptyDB : DB := ⟨[], [], [], []⟩

def exBuyer : User :=
  ⟨1, "buyer@example.com", "Buyer", "hash1", true, none, none, none, 0, none⟩

def exPackage : Package :=
  ⟨1, PackageTier.silver, "Silver Package",
   some "Basic learning package with essential courses", 254237, ⟨18, 1⟩,
   50000, 25000, "[]", 0, none⟩

def exOrder : Order :=
  ⟨1, 1, 1, "rzp_o1", none, none, 299999, "INR", OrderStatus.pending, 0, none⟩

/-- A pending order for a buyer without referrer. -/
def exDB : DB := ⟨[exBuyer], [exPackage], [exOrder], []⟩

def exDoneOrder : Order :=
  ⟨1, 1, 1, "rzp_o1", some "pay_1", some "secret:rzp_o1|pay_1", 299999, "INR",
   OrderStatus.completed, 0, some 5⟩

/-- The state after a successful first confirmation of `exOrder`. -/
def exDoneDB : DB :=
  ⟨[{ exBuyer with package_tier := some PackageTier.silver,
                   purchased_at := some 5, updated_at := some 5 }],
   [exPackage], [exDoneOrder], []⟩

/-- Referral chain fixtures: buyer(1) → A(2) → B(3) → C(4). -/
def exUserC : User :=
  ⟨4, "c@example.com", "C", "hash4", true, none, none, none, 0, none⟩

def exUserB : User :=
  ⟨3, "b@example.com", "B", "hash3", true, some 4, none, none, 0, none⟩

def exUserA : User :=
  ⟨2, "a@example.com", "A", "hash2", true, some 3, none, none, 0, none⟩

def exChainBuyer : User :=
  ⟨1, "buyer@example.com", "Buyer", "hash1", true, some 2, none, none, 0, none⟩

def exChainOrder : Order :=
  ⟨1, 1, 1, "rzp_o2", none, none, 299999, "INR", OrderStatus.pending, 0, none⟩

def exChainDB : DB :=
  ⟨[exChainBuyer, exUserA, exUserB, exUserC], [exPackage], [exChainOrder], []⟩

/-- A database with commissions and referrals for the dashboard witness. -/
def exStatsDB : DB :=
  ⟨[exBuyer,
    ⟨2, "a@example.com", "A", "hash2", true, some 1, none, none, 0, none⟩,
    ⟨3, "b@example.com", "B", "hash3", true, some 2, none, none, 0, none⟩],
   [exPackage], [exDoneOrder],
   [⟨1, 1, 1, 1, 50000, true, some 9, 5⟩, ⟨2, 1, 1, 2, 25000, false, none, 5⟩]⟩

/-- The persisted state after the chain buyer's order settles at tick 5:
order completed, buyer entitled, one level-1 row for A and one level-2 row
for B. -/
def exChainSettledDB : DB :=
  ⟨[⟨1, "buyer@example.com", "Buyer", "hash1", true, some 2,
     some PackageTier.silver, some 5, 0, some 5⟩, exUserA, exUserB, exUserC],
   [exPackage],
   [⟨1, 1, 1, "rzp_o2", some "pay_2", some "secret:rzp_o2|pay_2", 299999,
     "INR", OrderStatus.completed, 0, some 5⟩],
   [⟨1, 2, 1, 1, 50000, false, none, 5⟩, ⟨2, 3, 1, 2, 25000, false, none, 5⟩]⟩

/-- Abbreviation for the level-1 commission row the settlement loop inserts
first (its id is the autoincrement successor over the pre-call table). -/
def chainRow1 (db : DB) (aid oid_ : Nat) (pkg : Package) (now : Nat) : Commission :=
  ⟨nextId (db.commissions.map Commission.id), aid, oid_, 1,
   pkg.direct_commission, false, none, now⟩

/-- Abbreviation for the level-2 commission row inserted second. -/
def chainRow2 (db : DB) (aid bid oid_ : Nat) (pkg : Package) (now : Nat) : Commission :=
  ⟨nextId ((db.commissions ++ [chainRow1 db aid oid_ pkg now]).map Commission.id),
   bid, oid_, 2, pkg.indirect_commission, false, none, now⟩

/-- The stats record `get_user_stats exStatsDB 1` returns. -/
def exStats : UserStats :=
  ⟨exBuyer, ⟨75000, 50000, 25000, 50000, 25000, 2⟩, ⟨1, 1, 2⟩⟩

/-! ## Theorems -/

/-- C3 counterexample: the claimed identity
`gst_amount = floor(base_price * gst_rate / 100)` in exact integer
arithmetic fails on the code, which computes with binary64 floats:
at `base_price = 100`, `gst_rate = 29.0` the float product
`100 * (29.0 / 100)` is `28.999999999999996...`, so `int(...)` yields 28
while the exact floor is 29. -/
theorem gst_amount_float_counterexample :
    gst_amount 100 ⟨29, 1⟩ = 28 ∧ ((100 * 29 : ℤ) / 100 = 29) ∧
      gst_amount 100 ⟨29, 1⟩ ≠ (100 * 29 : ℤ) / 100 := by
  decide

/-- C3 (amended): `final_price = base_price + gst_amount` holds for every
base price and rate, and for the three seeded tiers (rate 18.0, bases
254237, 423559, 677966) the float-computed `gst_amount` coincides with the
exact `floor(base_price * gst_rate / 100)`; in particular base 254237 at
rate 18.0 gives tax 45762 and final price 299999.  The general exactness
over every rate fails (see the counterexample). -/
theorem gst_pricing_seeded_catalog_exact :
    (∀ (b : ℤ) (r : Q2), final_price b r = b + gst_amount b r) ∧
      gst_amount 254237 ⟨18, 1⟩ = (254237 * 18 : ℤ) / 100 ∧
      gst_amount 254237 ⟨18, 1⟩ = 45762 ∧
      final_price 254237 ⟨18, 1⟩ = 299999 ∧
      gst_amount 423559 ⟨18, 1⟩ = (423559 * 18 : ℤ) / 100 ∧
      final_price 423559 ⟨18, 1⟩ = 423559 + 76240 ∧
      gst_amount 677966 ⟨18, 1⟩ = (677966 * 18 : ℤ) / 100 ∧
      final_price 677966 ⟨18, 1⟩ = 677966 + 122033 := by
  refine ⟨fun b r => rfl, ?_, ?_, ?_, ?_, ?_, ?_, ?_⟩ <;> decide

/-- C2: confirming an already-completed order fails with the explicit
"Order already completed" error and performs zero writes: the session —
committed and in-memory state alike — is returned unchanged, so the order
and the commission rows from the first call persist exactly as they were. -/
theorem confirm_order_already_completed_noop
    (hmac : String → String → Option String) (secret : String) (now : Nat)
    (c1 c2 : Bool) (s : Sess) (oid pid sig : String) (o : Order)
    (hsig : verify_payment_signature hmac secret oid pid sig = true)
    (horder : findOrderByRzpId s.current oid = some o)
    (hdone : o.status = OrderStatus.completed) :
    verify_and_complete_order hmac secret now c1 c2 s oid pid sig =
      (.error "Order already completed", s) := by
  simp [verify_and_complete_order, hsig, horder, hdone]

/-- C2 witness: the duplicate confirmation of the completed `exDoneOrder`
with the same valid arguments is rejected and writes nothing. -/
theorem confirm_order_already_completed_noop_witness :
    verify_and_complete_order exHmac "secret" 9 true true ⟨exDoneDB, exDoneDB⟩
        "rzp_o1" "pay_1" "secret:rzp_o1|pay_1" =
      (.error "Order already completed", ⟨exDoneDB, exDoneDB⟩) :=
  confirm_order_already_completed_noop exHmac "secret" 9 true true
    ⟨exDoneDB, exDoneDB⟩ "rzp_o1" "pay_1" "secret:rzp_o1|pay_1" exDoneOrder
    (by decide) (by decide) (by decide)

/-- C4: `verify_payment_signature` accepts exactly the hex HMAC-SHA256 digest
of `"{order_id}|{payment_id}"` under the integration secret; an exception
during the digest computation (the collaborator returning `none`) yields
`false` rather than propagating; and whenever verification is `false`,
`verify_and_complete_order` fails with the invalid-signature error and
returns the session unchanged — the order stays pending and no commission is
created. -/
theorem verify_signature_hmac_iff_fail_closed
    (hmac : String → String → Option String) (secret oid pid sig : String) :
    (verify_payment_signature hmac secret oid pid sig = true ↔
      hmac secret (oid ++ "|" ++ pid) = some sig) ∧
    (hmac secret (oid ++ "|" ++ pid) = none →
      verify_payment_signature hmac secret oid pid sig = false) ∧
    (∀ (now : Nat) (c1 c2 : Bool) (s : Sess),
      verify_payment_signature hmac secret oid pid sig = false →
      verify_and_complete_order hmac secret now c1 c2 s oid pid sig =
        (.error "Invalid payment signature", s)) := by
  refine ⟨?_, ?_, ?_⟩
  · unfold verify_payment_signature
    cases h : hmac secret (oid ++ "|" ++ pid) <;> simp [h]
  · intro h
    unfold verify_payment_signature
    simp [h]
  · intro now c1 c2 s hfail
    simp [verify_and_complete_order, hfail]

/-- C4 witness: a tampered signature for a concrete digest collaborator is
rejected and the settlement call leaves the session untouched. -/
theorem verify_signature_hmac_iff_fail_closed_witness :
    verify_and_complete_order exHmac "k" 0 true true ⟨exEmptyDB, exEmptyDB⟩
        "o" "p" "bad" =
      (.error "Invalid payment signature", ⟨exEmptyDB, exEmptyDB⟩) :=
  (verify_signature_hmac_iff_fail_closed exHmac "k" "o" "p" "bad").2.2
    0 true true ⟨exEmptyDB, exEmptyDB⟩ (by decide)

/-- C1 (code bug): settlement is not atomic.  `update_user_package` issues
its own `session.commit()` in the middle of `verify_and_complete_order`,
which persists the order's transition to `completed` and the buyer's
entitlement before the commission rows are committed.  If the final commit
then fails, the call raises — yet the persisted state has the order
`completed`, the buyer's tier and purchase timestamp set, and zero
commission rows, contradicting the required rollback to the prior pending
state.  Evaluated here at a concrete pending order with a valid signature,
intermediate commit succeeding and final commit failing. -/
theorem confirm_order_final_commit_failure_not_atomic :
    (verify_and_complete_order exHmac "secret" 5 true false ⟨exDB, exDB⟩
        "rzp_o1" "pay_1" "secret:rzp_o1|pay_1").1 =
      .error "database error during commit" ∧
    (findOrderByRzpId (verify_and_complete_order exHmac "secret" 5 true false
        ⟨exDB, exDB⟩ "rzp_o1" "pay_1" "secret:rzp_o1|pay_1").2.committed
        "rzp_o1").map Order.status = some OrderStatus.completed ∧
    (findUserById (verify_and_complete_order exHmac "secret" 5 true false
        ⟨exDB, exDB⟩ "rzp_o1" "pay_1" "secret:rzp_o1|pay_1").2.committed
        1).map User.package_tier = some (some PackageTier.silver) ∧
    (verify_and_complete_order exHmac "secret" 5 true false ⟨exDB, exDB⟩
        "rzp_o1" "pay_1" "secret:rzp_o1|pay_1").2.committed.commissions = [] ∧
    exOrder.status = OrderStatus.pending := by
  decide

/-- C7: for every user and database state the dashboard stats satisfy the
balance and count identities, with the totals equal to the sums over the
user's commission rows (all, and those flagged paid out) and the counts
equal to the lengths of the direct- and indirect-referral collections. -/
theorem get_user_stats_invariants (db : DB) (uid : Nat) (st : UserStats)
    (h : get_user_stats db uid = .ok st) :
    st.earnings.available_balance =
      st.earnings.total_earned - st.earnings.total_paid_out ∧
    st.referrals.total_count =
      st.referrals.direct_count + st.referrals.indirect_count ∧
    st.earnings.total_earned =
      ((db.commissions.filter (fun c => c.earner_id == uid)).map Commission.amount).sum ∧
    st.earnings.total_paid_out =
      (((db.commissions.filter (fun c => c.earner_id == uid)).filter
          Commission.paid_out).map Commission.amount).sum ∧
    st.referrals.direct_count =
      (db.users.filter (fun u => u.referrer_id == some uid)).length ∧
    st.referrals.indirect_count =
      ((db.users.filter (fun u => u.referrer_id == some uid)).flatMap
        (fun r => db.users.filter (fun u => u.referrer_id == some r.id))).length := by
  unfold get_user_stats at h
  cases hu : findUserById db uid with
  | none => rw [hu] at h; exact absurd h (by simp)
  | some user =>
    rw [hu] at h
    injection h with h
    subst h
    exact ⟨rfl, rfl, rfl, rfl, rfl, rfl⟩

/-- C7 witness: the identities evaluated on a concrete database with two
commission rows (one paid out) and a two-level referral network. -/
theorem get_user_stats_invariants_witness :
    exStats.earnings.available_balance =
      exStats.earnings.total_earned - exStats.earnings.total_paid_out ∧
    exStats.referrals.total_count =
      exStats.referrals.direct_count + exStats.referrals.indirect_count ∧
    exStats.earnings.total_earned =
      ((exStatsDB.commissions.filter (fun c => c.earner_id == 1)).map Commission.amount).sum ∧
    exStats.earnings.total_paid_out =
      (((exStatsDB.commissions.filter (fun c => c.earner_id == 1)).filter
          Commission.paid_out).map Commission.amount).sum ∧
    exStats.referrals.direct_count =
      (exStatsDB.users.filter (fun u => u.referrer_id == some 1)).length ∧
    exStats.referrals.indirect_count =
      ((exStatsDB.users.filter (fun u => u.referrer_id == some 1)).flatMap
        (fun r => exStatsDB.users.filter (fun u => u.referrer_id == some r.id))).length :=
  get_user_stats_invariants exStatsDB 1 exStats (by decide)

/-- C10: `create_user` fails exactly when a user with the given email already
exists, and performs no validation of `referrer_id`: for every value of
`referrer_id` (including ids of no existing user), registration with a fresh
email succeeds and stores that value verbatim. -/
theorem create_user_validates_only_email
    (hashPw : String → String) (now : Nat) (db : DB)
    (email full_name password : String) (referrer_id : Option Nat) :
    ((∃ u ∈ db.users, u.email = email) →
      create_user hashPw now db email full_name password referrer_id =
        .error "User with this email already exists") ∧
    ((∀ u ∈ db.users, u.email ≠ email) →
      ∃ u, create_user hashPw now db email full_name password referrer_id =
          .ok (u, { db with users := db.users ++ [u] }) ∧
        u.referrer_id = referrer_id ∧ u.email = email) := by
  constructor
  · rintro ⟨u, hu, he⟩
    have hsome : (db.users.find? (fun v => v.email == email)).isSome := by
      rw [List.find?_isSome]
      exact ⟨u, hu, by simp [he]⟩
    unfold create_user findUserByEmail
    cases hfind : db.users.find? (fun v => v.email == email) with
    | none => rw [hfind] at hsome; simp at hsome
    | some v => simp [hfind]
  · intro hall
    have hnone : db.users.find? (fun v => v.email == email) = none := by
      rw [List.find?_eq_none]
      intro u hu
      simpa using hall u hu
    unfold create_user findUserByEmail
    rw [hnone]
    exact ⟨_, rfl, rfl, rfl⟩

/-- C10 witness: registering a fresh email with `referrer_id = 999`, an id
that refers to no existing user, succeeds and stores 999 verbatim. -/
theorem create_user_validates_only_email_witness :
    ∃ u, create_user (fun p => p) 3 exDB "new@example.com" "New" "pw" (some 999) =
        .ok (u, { exDB with users := exDB.users ++ [u] }) ∧
      u.referrer_id = some 999 ∧ u.email = "new@example.com" :=
  (create_user_validates_only_email (fun p => p) 3 exDB "new@example.com" "New"
    "pw" (some 999)).2 (by decide)

/-! ### Lemmas about one iteration of the seeding loop -/

theorem seedPackage_append (now : Nat) (db : DB) (pd : PackageSeed) :
    ∃ new, (seedPackage now db pd).packages = db.packages ++ new ∧
      ∀ q ∈ new, q.tier = pd.tier := by
  rcases h : findPackageByTier db pd.tier with _ | p
  · refine ⟨[⟨nextId (db.packages.map Package.id), pd.tier, pd.name,
      some pd.description, pd.base_price, ⟨18, 1⟩, pd.direct_commission,
      pd.indirect_commission, pd.features, now, none⟩], ?_, ?_⟩
    · simp only [seedPackage, h]
    · intro q hq
      rw [List.mem_singleton] at hq
      rw [hq]
  · exact ⟨[], by simp only [seedPackage, h, List.append_nil], by simp⟩

theorem seedPackage_countP_self (now : Nat) (db : DB) (pd : PackageSeed) :
    (seedPackage now db pd).packages.countP (fun p => p.tier == pd.tier) =
      db.packages.countP (fun p => p.tier == pd.tier) +
        (if (findPackageByTier db pd.tier).isSome then 0 else 1) := by
  rcases h : findPackageByTier db pd.tier with _ | p <;>
    simp [seedPackage, h, List.countP_append, List.countP_cons]

theorem seedPackage_countP_other (now : Nat) (db : DB) (pd : PackageSeed)
    (t : PackageTier) (hne : t ≠ pd.tier) :
    (seedPackage now db pd).packages.countP (fun p => p.tier == t) =
      db.packages.countP (fun p => p.tier == t) := by
  rcases h : findPackageByTier db pd.tier with _ | p <;>
    simp [seedPackage, h, List.countP_append, List.countP_cons, beq_iff_eq,
      Ne.symm hne]

theorem seedPackage_hasTier_other (now : Nat) (db : DB) (pd : PackageSeed)
    (t : PackageTier) (hne : t ≠ pd.tier) :
    findPackageByTier (seedPackage now db pd) t = findPackageByTier db t := by
  rcases h : findPackageByTier db pd.tier with _ | p
  · simp only [seedPackage, h]
    unfold findPackageByTier
    rw [List.find?_append]
    have : ([(⟨nextId (db.packages.map Package.id), pd.tier, pd.name,
        some pd.description, pd.base_price, ⟨18, 1⟩, pd.direct_commission,
        pd.indirect_commission, pd.features, now, none⟩ : Package)].find?
          (fun p => p.tier == t)) = none := by
      simp [List.find?_cons, beq_iff_eq, Ne.symm hne]
    rw [this, Option.or_none]
  · simp only [seedPackage, h]

theorem seedPackage_hasTier_self (now : Nat) (db : DB) (pd : PackageSeed) :
    (findPackageByTier (seedPackage now db pd) pd.tier).isSome = true := by
  rcases h : findPackageByTier db pd.tier with _ | p
  · simp only [seedPackage, h]
    unfold findPackageByTier at h ⊢
    rw [List.find?_append, h, Option.none_or]
    simp [List.find?_cons]
  · simp only [seedPackage, h]
    rfl

theorem seedPackage_preserves_hasTier (now : Nat) (db : DB) (pd : PackageSeed)
    (t : PackageTier) (h : (findPackageByTier db t).isSome = true) :
    (findPackageByTier (seedPackage now db pd) t).isSome = true := by
  obtain ⟨q, hq⟩ := Option.isSome_iff_exists.mp h
  obtain ⟨new, hnew, -⟩ := seedPackage_append now db pd
  unfold findPackageByTier at hq ⊢
  rw [hnew, List.find?_append, hq]
  rfl

theorem seedPackage_eq_of_hasTier (now : Nat) (db : DB) (pd : PackageSeed)
    (h : (findPackageByTier db pd.tier).isSome = true) :
    seedPackage now db pd = db := by
  rcases hf : findPackageByTier db pd.tier with _ | p
  · rw [hf] at h
    simp at h
  · simp only [seedPackage, hf]

/-- C8: seeding is idempotent.  It only appends rows (never mutates an
existing Package row); for each catalog tier it adds a row exactly when no
row with that tier exists; from a state already containing the catalog it is
the identity; and running it twice equals running it once. -/
theorem create_default_packages_idempotent (now : Nat) (db : DB) :
    (∃ new, (create_default_packages now db).packages = db.packages ++ new) ∧
    (∀ pd ∈ packages_data,
      (create_default_packages now db).packages.countP (fun p => p.tier == pd.tier) =
        db.packages.countP (fun p => p.tier == pd.tier) +
          (if (findPackageByTier db pd.tier).isSome then 0 else 1)) ∧
    ((∀ pd ∈ packages_data, (findPackageByTier db pd.tier).isSome = true) →
      create_default_packages now db = db) ∧
    create_default_packages now (create_default_packages now db) =
      create_default_packages now db := by
  have hfold : ∀ d : DB, create_default_packages now d =
      seedPackage now (seedPackage now (seedPackage now d silverSeed) goldSeed)
        platinumSeed := fun d => rfl
  refine ⟨?_, ?_, ?_, ?_⟩
  · obtain ⟨n1, h1, -⟩ := seedPackage_append now db silverSeed
    obtain ⟨n2, h2, -⟩ :=
      seedPackage_append now (seedPackage now db silverSeed) goldSeed
    obtain ⟨n3, h3, -⟩ := seedPackage_append now
      (seedPackage now (seedPackage now db silverSeed) goldSeed) platinumSeed
    refine ⟨n1 ++ n2 ++ n3, ?_⟩
    rw [hfold, h3, h2, h1]
    simp [List.append_assoc]
  · intro pd hpd
    have hpd' : pd = silverSeed ∨ pd = goldSeed ∨ pd = platinumSeed := by
      simpa [packages_data] using hpd
    rcases hpd' with h | h | h <;> subst h <;> rw [hfold]
    · rw [seedPackage_countP_other now _ platinumSeed silverSeed.tier (by decide),
        seedPackage_countP_other now _ goldSeed silverSeed.tier (by decide)]
      exact seedPackage_countP_self now db silverSeed
    · rw [seedPackage_countP_other now _ platinumSeed goldSeed.tier (by decide),
        seedPackage_countP_self now (seedPackage now db silverSeed) goldSeed,
        seedPackage_countP_other now db silverSeed goldSeed.tier (by decide),
        seedPackage_hasTier_other now db silverSeed goldSeed.tier (by decide)]
    · rw [seedPackage_countP_self now _ platinumSeed,
        seedPackage_countP_other now _ goldSeed platinumSeed.tier (by decide),
        seedPackage_countP_other now db silverSeed platinumSeed.tier (by decide),
        seedPackage_hasTier_other now _ goldSeed platinumSeed.tier (by decide),
        seedPackage_hasTier_other now db silverSeed platinumSeed.tier (by decide)]
  · intro hall
    have hs := hall silverSeed (by simp [packages_data])
    have hg := hall goldSeed (by simp [packages_data])
    have hp := hall platinumSeed (by simp [packages_data])
    rw [hfold, seedPackage_eq_of_hasTier now db silverSeed hs,
      seedPackage_eq_of_hasTier now db goldSeed hg,
      seedPackage_eq_of_hasTier now db platinumSeed hp]
  · have hs3 : (findPackageByTier (create_default_packages now db)
        silverSeed.tier).isSome = true := by
      rw [hfold]
      exact seedPackage_preserves_hasTier now _ platinumSeed _
        (seedPackage_preserves_hasTier now _ goldSeed _
          (seedPackage_hasTier_self now db silverSeed))
    have hg3 : (findPackageByTier (create_default_packages now db)
        goldSeed.tier).isSome = true := by
      rw [hfold]
      exact seedPackage_preserves_hasTier now _ platinumSeed _
        (seedPackage_hasTier_self now (seedPackage now db silverSeed) goldSeed)
    have hp3 : (findPackageByTier (create_default_packages now db)
        platinumSeed.tier).isSome = true := by
      rw [hfold]
      exact seedPackage_hasTier_self now
        (seedPackage now (seedPackage now db silverSeed) goldSeed) platinumSeed
    rw [hfold (create_default_packages now db),
      seedPackage_eq_of_hasTier now _ silverSeed hs3,
      seedPackage_eq_of_hasTier now _ goldSeed hg3,
      seedPackage_eq_of_hasTier now _ platinumSeed hp3]

/-- C8 witness: seeding an empty store adds the silver row (the tier was
absent), and a second run over the seeded store changes nothing. -/
theorem create_default_packages_idempotent_witness :
    ((create_default_packages 0 exEmptyDB).packages.countP
        (fun p => p.tier == silverSeed.tier) =
      exEmptyDB.packages.countP (fun p => p.tier == silverSeed.tier) +
        (if (findPackageByTier exEmptyDB silverSeed.tier).isSome then 0 else 1)) ∧
    create_default_packages 0 (create_default_packages 0 exEmptyDB) =
      create_default_packages 0 exEmptyDB :=
  ⟨(create_default_packages_idempotent 0 exEmptyDB).2.1 silverSeed (by decide),
   (create_default_packages_idempotent 0 exEmptyDB).2.2.2⟩

/-! ### Lemmas about lookups after in-place row updates -/

theorem find?_map_of_pred {α : Type} (p : α → Bool) (f : α → α)
    (hp : ∀ a, p (f a) = p a) :
    ∀ l : List α, (l.map f).find? p = (l.find? p).map f := by
  intro l
  induction l with
  | nil => rfl
  | cons a t ih =>
    cases hpa : p a with
    | true => simp [List.find?_cons, hpa, hp a]
    | false => simp [List.find?_cons, hpa, hp a, ih]

theorem find?_replaceUserById (users : List User) (uid n : Nat) (u' : User)
    (hid : u'.id = uid) :
    (replaceUserById users uid u').find? (fun u => u.id == n) =
      (users.find? (fun u => u.id == n)).map
        (fun u => if u.id == uid then u' else u) := by
  unfold replaceUserById
  apply find?_map_of_pred
  intro a
  by_cases ha : a.id = uid
  · simp [ha, hid]
  · simp [beq_iff_eq, ha]

/-- C6: a buyer without referrer who completes a purchase gets a completed
order and the entitlement (package tier and purchase timestamp), and exactly
zero Commission rows are created. -/
theorem confirm_order_no_referrer
    (hmac : String → String → Option String) (secret : String) (now : Nat)
    (db : DB) (oid pid sig : String) (o : Order) (buyer : User) (pkg : Package)
    (hsig : verify_payment_signature hmac secret oid pid sig = true)
    (horder : findOrderByRzpId db oid = some o)
    (hpending : o.status = OrderStatus.pending)
    (hpkg : findPackageById db o.package_id = some pkg)
    (hbuyer : findUserById db o.user_id = some buyer)
    (hnoref : buyer.referrer_id = none) :
    (verify_and_complete_order hmac secret now true true ⟨db, db⟩ oid pid sig).1 =
      .ok ⟨"Payment verified successfully", o.id, OrderStatus.completed⟩ ∧
    (verify_and_complete_order hmac secret now true true ⟨db, db⟩
        oid pid sig).2.committed.commissions = db.commissions ∧
    (verify_and_complete_order hmac secret now true true ⟨db, db⟩
        oid pid sig).2.committed.orders =
      replaceOrderById db.orders o.id
        { o with razorpay_payment_id := some pid, razorpay_signature := some sig,
                 status := OrderStatus.completed, completed_at := some now } ∧
    findUserById (verify_and_complete_order hmac secret now true true ⟨db, db⟩
        oid pid sig).2.committed o.user_id =
      some { buyer with package_tier := some pkg.tier, purchased_at := some now,
                        updated_at := some now } := by
  have horder' : db.orders.find? (fun x => x.razorpay_order_id == oid) = some o := horder
  have hpkg' : db.packages.find? (fun p => p.id == o.package_id) = some pkg := hpkg
  have hbuyer' : db.users.find? (fun u => u.id == o.user_id) = some buyer := hbuyer
  have hre : (replaceUserById db.users buyer.id
      { buyer with package_tier := some pkg.tier, purchased_at := some now,
                   updated_at := some now }).find? (fun u => u.id == o.user_id) =
      some { buyer with package_tier := some pkg.tier, purchased_at := some now,
                        updated_at := some now } := by
    rw [find?_replaceUserById db.users buyer.id o.user_id
        { buyer with package_tier := some pkg.tier, purchased_at := some now,
                     updated_at := some now } rfl, hbuyer']
    simp
  have hmain : verify_and_complete_order hmac secret now true true ⟨db, db⟩
      oid pid sig =
      (.ok ⟨"Payment verified successfully", o.id, OrderStatus.completed⟩,
       ⟨⟨replaceUserById db.users buyer.id
           { buyer with package_tier := some pkg.tier, purchased_at := some now,
                        updated_at := some now },
         db.packages,
         replaceOrderById db.orders o.id
           { o with razorpay_payment_id := some pid,
                    razorpay_signature := some sig,
                    status := OrderStatus.completed, completed_at := some now },
         db.commissions⟩,
        ⟨replaceUserById db.users buyer.id
           { buyer with package_tier := some pkg.tier, purchased_at := some now,
                        updated_at := some now },
         db.packages,
         replaceOrderById db.orders o.id
           { o with razorpay_payment_id := some pid,
                    razorpay_signature := some sig,
                    status := OrderStatus.completed, completed_at := some now },
         db.commissions⟩⟩) := by
    simp only [verify_and_complete_order, hsig, update_user_package,
      findOrderByRzpId, findPackageById, findUserById, horder', hpending,
      hpkg', hbuyer', hnoref, pyTruthy, Bool.true_eq_false,
      Bool.false_eq_true, if_false, reduceCtorEq, if_true]
    rw [hnoref] at hre
    simp only [hre, Bool.false_eq_true, if_false]
  rw [hmain]
  exact ⟨rfl, rfl, rfl, hre⟩

/-- C6 witness: settling `exOrder` for `exBuyer` (who has no referrer)
completes the order, grants the entitlement and creates no commissions. -/
theorem confirm_order_no_referrer_witness :
    (verify_and_complete_order exHmac "secret" 5 true true ⟨exDB, exDB⟩
        "rzp_o1" "pay_1" "secret:rzp_o1|pay_1").1 =
      .ok ⟨"Payment verified successfully", exOrder.id, OrderStatus.completed⟩ ∧
    (verify_and_complete_order exHmac "secret" 5 true true ⟨exDB, exDB⟩
        "rzp_o1" "pay_1" "secret:rzp_o1|pay_1").2.committed.commissions =
      exDB.commissions ∧
    (verify_and_complete_order exHmac "secret" 5 true true ⟨exDB, exDB⟩
        "rzp_o1" "pay_1" "secret:rzp_o1|pay_1").2.committed.orders =
      replaceOrderById exDB.orders exOrder.id
        { exOrder with razorpay_payment_id := some "pay_1",
                       razorpay_signature := some "secret:rzp_o1|pay_1",
                       status := OrderStatus.completed, completed_at := some 5 } ∧
    findUserById (verify_and_complete_order exHmac "secret" 5 true true
        ⟨exDB, exDB⟩ "rzp_o1" "pay_1" "secret:rzp_o1|pay_1").2.committed
        exOrder.user_id =
      some { exBuyer with package_tier := some exPackage.tier,
                          purchased_at := some 5, updated_at := some 5 } :=
  confirm_order_no_referrer exHmac "secret" 5 exDB "rzp_o1" "pay_1"
    "secret:rzp_o1|pay_1" exOrder exBuyer exPackage (by decide) (by decide)
    (by decide) (by decide) (by decide) (by decide)

/-- C5: for a referral chain buyer → A → B → C, a successfully confirmed
purchase creates exactly two Commission rows for the order: a level-1 row
for A with the package's direct commission and a level-2 row for B with the
package's indirect commission; C earns nothing (every commission row of the
final state whose earner is C was already there before the call). -/
theorem confirm_order_two_level_chain
    (hmac : String → String → Option String) (secret : String) (now : Nat)
    (db : DB) (oid pid sig : String) (o : Order) (buyer A B C : User)
    (pkg : Package)
    (hsig : verify_payment_signature hmac secret oid pid sig = true)
    (horder : findOrderByRzpId db oid = some o)
    (hpending : o.status = OrderStatus.pending)
    (hpkg : findPackageById db o.package_id = some pkg)
    (hbuyer : findUserById db o.user_id = some buyer)
    (hbuyerRef : buyer.referrer_id = some A.id)
    (hA : findUserById db A.id = some A)
    (hAid : A.id ≠ 0)
    (hAneb : A.id ≠ buyer.id)
    (hARef : A.referrer_id = some B.id)
    (_hB : findUserById db B.id = some B)
    (hBid : B.id ≠ 0)
    (_hBRef : B.referrer_id = some C.id)
    (hCA : C.id ≠ A.id)
    (hCB : C.id ≠ B.id)
    (hNoPrior : db.commissions.filter (fun c => c.order_id == o.id) = []) :
    (verify_and_complete_order hmac secret now true true ⟨db, db⟩ oid pid sig).1 =
      .ok ⟨"Payment verified successfully", o.id, OrderStatus.completed⟩ ∧
    (verify_and_complete_order hmac secret now true true ⟨db, db⟩
        oid pid sig).2.committed.commissions =
      db.commissions ++
        [chainRow1 db A.id o.id pkg now, chainRow2 db A.id B.id o.id pkg now] ∧
    (verify_and_complete_order hmac secret now true true ⟨db, db⟩
        oid pid sig).2.committed.commissions.filter
          (fun c => c.order_id == o.id) =
      [chainRow1 db A.id o.id pkg now, chainRow2 db A.id B.id o.id pkg now] ∧
    (∀ c ∈ (verify_and_complete_order hmac secret now true true ⟨db, db⟩
        oid pid sig).2.committed.commissions,
      c.earner_id = C.id → c ∈ db.commissions) := by
  have horder' : db.orders.find? (fun x => x.razorpay_order_id == oid) = some o := horder
  have hpkg' : db.packages.find? (fun p => p.id == o.package_id) = some pkg := hpkg
  have hbuyer' : db.users.find? (fun u => u.id == o.user_id) = some buyer := hbuyer
  have hA' : db.users.find? (fun u => u.id == A.id) = some A := hA
  have htA : pyTruthy (some A.id) = true := by simp [pyTruthy, hAid]
  have htB : pyTruthy (some B.id) = true := by simp [pyTruthy, hBid]
  have hre : (replaceUserById db.users buyer.id
      { buyer with package_tier := some pkg.tier, purchased_at := some now,
                   updated_at := some now }).find? (fun u => u.id == o.user_id) =
      some { buyer with package_tier := some pkg.tier, purchased_at := some now,
                        updated_at := some now } := by
    rw [find?_replaceUserById db.users buyer.id o.user_id
        { buyer with package_tier := some pkg.tier, purchased_at := some now,
                     updated_at := some now } rfl, hbuyer']
    simp
  have hreA : (replaceUserById db.users buyer.id
      { buyer with package_tier := some pkg.tier, purchased_at := some now,
                   updated_at := some now }).find? (fun u => u.id == A.id) =
      some A := by
    rw [find?_replaceUserById db.users buyer.id A.id
        { buyer with package_tier := some pkg.tier, purchased_at := some now,
                     updated_at := some now } rfl, hA']
    simp [beq_iff_eq, hAneb]
  have hmain : verify_and_complete_order hmac secret now true true ⟨db, db⟩
      oid pid sig =
      (.ok ⟨"Payment verified successfully", o.id, OrderStatus.completed⟩,
       ⟨⟨replaceUserById db.users buyer.id
           { buyer with package_tier := some pkg.tier, purchased_at := some now,
                        updated_at := some now },
         db.packages,
         replaceOrderById db.orders o.id
           { o with razorpay_payment_id := some pid,
                    razorpay_signature := some sig,
                    status := OrderStatus.completed, completed_at := some now },
         (db.commissions ++ [chainRow1 db A.id o.id pkg now]) ++
           [chainRow2 db A.id B.id o.id pkg now]⟩,
        ⟨replaceUserById db.users buyer.id
           { buyer with package_tier := some pkg.tier, purchased_at := some now,
                        updated_at := some now },
         db.packages,
         replaceOrderById db.orders o.id
           { o with razorpay_payment_id := some pid,
                    razorpay_signature := some sig,
                    status := OrderStatus.completed, completed_at := some now },
         (db.commissions ++ [chainRow1 db A.id o.id pkg now]) ++
           [chainRow2 db A.id B.id o.id pkg now]⟩⟩) := by
    simp only [verify_and_complete_order, hsig, update_user_package,
      findOrderByRzpId, findPackageById, findUserById, horder', hpending,
      hpkg', hbuyer', hbuyerRef, Bool.true_eq_false, Bool.false_eq_true,
      if_false, reduceCtorEq, if_true]
    rw [hbuyerRef] at hre hreA
    simp only [hre, htA, if_true, findUserById, hreA, hARef,
      calculate_commissions, htB, Option.getD_some, List.nil_append,
      addCommissions, List.foldl_cons, List.foldl_nil]
    simp [chainRow1, chainRow2]
  rw [hmain]
  refine ⟨rfl, by simp, ?_, ?_⟩
  · simp only [List.filter_append, hNoPrior]
    simp [chainRow1, chainRow2]
  · intro c hc hcC
    simp only [List.append_assoc, List.mem_append] at hc
    rcases hc with hc | hc
    · exact hc
    · exfalso
      simp only [List.mem_cons, List.not_mem_nil, or_false] at hc
      rcases hc with hc | hc
      · rw [hc] at hcC
        exact hCA (by simpa [chainRow1] using hcC.symm)
      · rw [hc] at hcC
        exact hCB (by simpa [chainRow2] using hcC.symm)

/-- C5 witness: the concrete chain buyer(1) → A(2) → B(3) → C(4) settling
`exChainOrder`: exactly the level-1 row for A and the level-2 row for B are
created, and C earns nothing. -/
theorem confirm_order_two_level_chain_witness :
    (verify_and_complete_order exHmac "secret" 5 true true
        ⟨exChainDB, exChainDB⟩ "rzp_o2" "pay_2" "secret:rzp_o2|pay_2").1 =
      .ok ⟨"Payment verified successfully", exChainOrder.id,
           OrderStatus.completed⟩ ∧
    (verify_and_complete_order exHmac "secret" 5 true true
        ⟨exChainDB, exChainDB⟩ "rzp_o2" "pay_2"
        "secret:rzp_o2|pay_2").2.committed.commissions =
      exChainDB.commissions ++
        [chainRow1 exChainDB exUserA.id exChainOrder.id exPackage 5,
         chainRow2 exChainDB exUserA.id exUserB.id exChainOrder.id exPackage 5] ∧
    (verify_and_complete_order exHmac "secret" 5 true true
        ⟨exChainDB, exChainDB⟩ "rzp_o2" "pay_2"
        "secret:rzp_o2|pay_2").2.committed.commissions.filter
          (fun c => c.order_id == exChainOrder.id) =
      [chainRow1 exChainDB exUserA.id exChainOrder.id exPackage 5,
       chainRow2 exChainDB exUserA.id exUserB.id exChainOrder.id exPackage 5] ∧
    (∀ c ∈ (verify_and_complete_order exHmac "secret" 5 true true
        ⟨exChainDB, exChainDB⟩ "rzp_o2" "pay_2"
        "secret:rzp_o2|pay_2").2.committed.commissions,
      c.earner_id = exUserC.id → c ∈ exChainDB.commissions) :=
  confirm_order_two_level_chain exHmac "secret" 5 exChainDB "rzp_o2" "pay_2"
    "secret:rzp_o2|pay_2" exChainOrder exChainBuyer exUserA exUserB exUserC
    exPackage (by decide) (by decide) (by decide) (by decide) (by decide)
    (by decide) (by decide) (by decide) (by decide) (by decide) (by decide)
    (by decide) (by decide) (by decide) (by decide) (by decide)

/-- C9: structural invariant of commission creation.  For every successful
settlement call, writing the committed commission table as the pre-call
table plus a suffix of inserted rows: every inserted row has level 1 or
level 2, at most one row per level is inserted (and all settlement rows of
an order come from the unique successful call, guarded by the
already-completed check), a level-2 row is inserted only together with a
level-1 row, and all inserted rows reference the same order. -/
theorem settlement_commission_rows_wellformed
    (hmac : String → String → Option String) (secret : String) (now : Nat)
    (c1 c2 : Bool) (db : DB) (oid pid sig : String) (r : ConfirmResult)
    (s' : Sess) (new : List Commission)
    (h : verify_and_complete_order hmac secret now c1 c2 ⟨db, db⟩ oid pid sig =
      (.ok r, s'))
    (hnew : s'.committed.commissions = db.commissions ++ new) :
    (∀ c ∈ new, c.level = 1 ∨ c.level = 2) ∧
    new.countP (fun c => c.level == 1) ≤ 1 ∧
    new.countP (fun c => c.level == 2) ≤ 1 ∧
    ((∃ c ∈ new, c.level = 2) → ∃ c ∈ new, c.level = 1) ∧
    (∀ c ∈ new, ∀ c' ∈ new, c.order_id = c'.order_id) := by
  simp only [verify_and_complete_order] at h
  split at h
  · simp at h
  · split at h
    · simp at h
    · rename_i order horder2
      split at h
      · simp at h
      · split at h
        · simp at h
        · rename_i package hpkg2
          split at h
          · simp at h
          · rename_i u s1 heq
            simp only [update_user_package] at heq
            split at heq
            · simp at heq
            · rename_i user0 hfu0
              split at heq
              · rw [Prod.mk.injEq] at heq
                obtain ⟨-, heq2⟩ := heq
                subst heq2
                split at h
                · rw [Prod.mk.injEq, Except.ok.injEq] at h
                  obtain ⟨-, hs'⟩ := h
                  subst hs'
                  split at hnew
                  · rename_i user hfind
                    split at hnew
                    · rename_i htrue
                      cases hur : user.referrer_id with
                      | none =>
                        rw [hur] at htrue
                        simp [pyTruthy] at htrue
                      | some rid =>
                        rw [hur] at htrue hnew
                        split at hnew
                        all_goals
                          simp only [calculate_commissions, htrue, if_true,
                            List.nil_append, List.singleton_append,
                            Option.getD_some] at hnew
                        all_goals split at hnew
                        all_goals
                          simp only [addCommissions, List.foldl_cons,
                            List.foldl_nil] at hnew
                        all_goals
                          try simp only [List.append_assoc] at hnew
                        all_goals
                          have hrows := List.append_cancel_left hnew
                        all_goals subst hrows
                        all_goals
                          refine ⟨?_, ?_, ?_, ?_, ?_⟩ <;>
                            simp [List.countP_cons, List.countP_nil]
                    · have hempty : new = [] := by simpa using hnew
                      subst hempty
                      simp
                  · have hempty : new = [] := by simpa using hnew
                    subst hempty
                    simp
                · simp at h
              · simp at heq

/-- C9 witness: the two rows inserted by the settled chain purchase satisfy
the structural invariant. -/
theorem settlement_commission_rows_wellformed_witness :
    (∀ c ∈ ([⟨1, 2, 1, 1, 50000, false, none, 5⟩,
             ⟨2, 3, 1, 2, 25000, false, none, 5⟩] : List Commission),
      c.level = 1 ∨ c.level = 2) ∧
    ([⟨1, 2, 1, 1, 50000, false, none, 5⟩,
      ⟨2, 3, 1, 2, 25000, false, none, 5⟩] : List Commission).countP
        (fun c => c.level == 1) ≤ 1 ∧
    ([⟨1, 2, 1, 1, 50000, false, none, 5⟩,
      ⟨2, 3, 1, 2, 25000, false, none, 5⟩] : List Commission).countP
        (fun c => c.level == 2) ≤ 1 ∧
    ((∃ c ∈ ([⟨1, 2, 1, 1, 50000, false, none, 5⟩,
              ⟨2, 3, 1, 2, 25000, false, none, 5⟩] : List Commission),
        c.level = 2) →
      ∃ c ∈ ([⟨1, 2, 1, 1, 50000, false, none, 5⟩,
              ⟨2, 3, 1, 2, 25000, false, none, 5⟩] : List Commission),
        c.level = 1) ∧
    (∀ c ∈ ([⟨1, 2, 1, 1, 50000, false, none, 5⟩,
             ⟨2, 3, 1, 2, 25000, false, none, 5⟩] : List Commission),
      ∀ c' ∈ ([⟨1, 2, 1, 1, 50000, false, none, 5⟩,
               ⟨2, 3, 1, 2, 25000, false, none, 5⟩] : List Commission),
        c.order_id = c'.order_id) :=
  settlement_commission_rows_wellformed exHmac "secret" 5 true true exChainDB
    "rzp_o2" "pay_2" "secret:rzp_o2|pay_2"
    ⟨"Payment verified successfully", 1, OrderStatus.completed⟩
    ⟨exChainSettledDB, exChainSettledDB⟩
    [⟨1, 2, 1, 1, 50000, false, none, 5⟩, ⟨2, 3, 1, 2, 25000, false, none, 5⟩]
    (by decide) (by decide)

end Abaus
